import Mathlib

/-!
Shallow embedding of the rinputer4_5 event-normalization pipeline
(`src/main.rs`) and verification of its specification claims.

Conventions of the embedding:
* Rust `i32` values are modelled as `Int`; none of the computations under
  scrutiny approach the `i32` boundaries on the inputs the claims quantify
  over.
* Rust integer division `/` truncates toward zero and panics on a zero
  divisor; it is modelled by `Int.tdiv` guarded by an `Option`, where
  `none` stands for the panic.
* Event codes and event types are the raw numeric values of the Linux
  input ABI that the `evdev` crate exposes (`EV_KEY = 1`, `EV_ABS = 3`,
  `BTN_SOUTH = 0x130`, `ABS_HAT0X = 0x10`, ...).
-/

namespace Rinputer

/-- Canonical stick-axis maximum, `MAX_OUT_ANALOG` in main.rs. -/
def MAX_OUT_ANALOG : Int := 32767

/-- Canonical stick-axis minimum, `MIN_OUT_ANALOG` in main.rs. -/
def MIN_OUT_ANALOG : Int := -32768

/-- Canonical hat-axis minimum, `MIN_OUT_HAT` in main.rs. -/
def MIN_OUT_HAT : Int := -1

/-- Canonical hat-axis maximum, `MAX_OUT_HAT` in main.rs. -/
def MAX_OUT_HAT : Int := 1

/-- Canonical trigger-axis minimum, `MIN_OUT_TRIG` in main.rs. -/
def MIN_OUT_TRIG : Int := 0

/-- Canonical trigger-axis maximum, `MAX_OUT_TRIG` in main.rs. -/
def MAX_OUT_TRIG : Int := 255

/-- Linux input ABI event type of digital key/button events. -/
def EV_KEY : Nat := 1

/-- Linux input ABI event type of absolute-axis events. -/
def EV_ABS : Nat := 3

/-- Absolute axis code `ABS_X`. -/
def ABS_X : Nat := 0x00

/-- Absolute axis code `ABS_Y`. -/
def ABS_Y : Nat := 0x01

/-- Absolute axis code `ABS_Z` (left trigger in the output contract). -/
def ABS_Z : Nat := 0x02

/-- Absolute axis code `ABS_RX`. -/
def ABS_RX : Nat := 0x03

/-- Absolute axis code `ABS_RY`. -/
def ABS_RY : Nat := 0x04

/-- Absolute axis code `ABS_RZ` (right trigger in the output contract). -/
def ABS_RZ : Nat := 0x05

/-- Absolute axis code `ABS_HAT0X` (horizontal hat). -/
def ABS_HAT0X : Nat := 0x10

/-- Absolute axis code `ABS_HAT0Y` (vertical hat). -/
def ABS_HAT0Y : Nat := 0x11

/-- Key code `BTN_SOUTH`. -/
def BTN_SOUTH : Nat := 0x130

/-- Key code `BTN_EAST`. -/
def BTN_EAST : Nat := 0x131

/-- Key code `BTN_C`. -/
def BTN_C : Nat := 0x132

/-- Key code `BTN_NORTH`. -/
def BTN_NORTH : Nat := 0x133

/-- Key code `BTN_WEST`. -/
def BTN_WEST : Nat := 0x134

/-- Key code `BTN_Z`. -/
def BTN_Z : Nat := 0x135

/-- Key code `BTN_TL`. -/
def BTN_TL : Nat := 0x136

/-- Key code `BTN_TR`. -/
def BTN_TR : Nat := 0x137

/-- Key code `BTN_TL2`. -/
def BTN_TL2 : Nat := 0x138

/-- Key code `BTN_TR2`. -/
def BTN_TR2 : Nat := 0x139

/-- Key code `BTN_SELECT`. -/
def BTN_SELECT : Nat := 0x13a

/-- Key code `BTN_START`. -/
def BTN_START : Nat := 0x13b

/-- Key code `BTN_THUMBL`. -/
def BTN_THUMBL : Nat := 0x13d

/-- Key code `BTN_THUMBR`. -/
def BTN_THUMBR : Nat := 0x13e

/-- Key code `BTN_DPAD_UP`. -/
def BTN_DPAD_UP : Nat := 0x220

/-- Key code `BTN_DPAD_DOWN`. -/
def BTN_DPAD_DOWN : Nat := 0x221

/-- Key code `BTN_DPAD_LEFT`. -/
def BTN_DPAD_LEFT : Nat := 0x222

/-- Key code `BTN_DPAD_RIGHT`. -/
def BTN_DPAD_RIGHT : Nat := 0x223

/-- An evdev input event: event type (`EV_KEY`, `EV_ABS`, ...), numeric
code, and signed 32-bit value (modelled as `Int`). -/
structure InputEvent where
  eventType : Nat
  code : Nat
  value : Int
deriving DecidableEq

/-- The `generic_dac` quirk of main.rs (lines 35-48): rewrites discrete
D-pad button events into hat-axis events (`0`, or `-1`/`1` for up/left
and down/right respectively) and the `BTN_TL2`/`BTN_TR2` shoulder
buttons into full-scale trigger-axis events. Events it does not match
(non-key events, other key codes) are left unchanged, exactly as the
early `return`s of the Rust function leave `ev` in place. The
`mpsc::Sender` parameter of the Rust function is unused there, so it is
dropped here. -/
def generic_dac : InputEvent → InputEvent
  | ⟨t, c, v⟩ =>
    if t ≠ EV_KEY then ⟨t, c, v⟩
    else if c = BTN_DPAD_UP then
      ⟨EV_ABS, ABS_HAT0Y, if v = 0 then 0 else -1⟩
    else if c = BTN_DPAD_DOWN then
      ⟨EV_ABS, ABS_HAT0Y, if v = 0 then 0 else 1⟩
    else if c = BTN_DPAD_LEFT then
      ⟨EV_ABS, ABS_HAT0X, if v = 0 then 0 else -1⟩
    else if c = BTN_DPAD_RIGHT then
      ⟨EV_ABS, ABS_HAT0X, if v = 0 then 0 else 1⟩
    else if c = BTN_TL2 then
      ⟨EV_ABS, ABS_Z, if v = 0 then MIN_OUT_TRIG else MAX_OUT_TRIG⟩
    else if c = BTN_TR2 then
      ⟨EV_ABS, ABS_RZ, if v = 0 then MIN_OUT_TRIG else MAX_OUT_TRIG⟩
    else ⟨t, c, v⟩

/-- The `rg351m` quirk of main.rs (lines 50-74): the fixed remap table
for the known-broken vendor/product pair. Key events with a listed code
are rewritten per the table (face buttons swapped/rotated, shoulder
buttons to thumb clicks, `BTN_SELECT`/`BTN_START` to full-scale trigger
axes, `BTN_TR`/`BTN_TL` to select/start); all other events are left
unchanged. The unused `mpsc::Sender` parameter is dropped. -/
def rg351m : InputEvent → InputEvent
  | ⟨t, c, v⟩ =>
    if t ≠ EV_KEY then ⟨t, c, v⟩
    else if c = BTN_EAST then ⟨EV_KEY, BTN_SOUTH, v⟩
    else if c = BTN_SOUTH then ⟨EV_KEY, BTN_EAST, v⟩
    else if c = BTN_NORTH then ⟨EV_KEY, BTN_WEST, v⟩
    else if c = BTN_C then ⟨EV_KEY, BTN_NORTH, v⟩
    else if c = BTN_TL2 then ⟨EV_KEY, BTN_THUMBL, v⟩
    else if c = BTN_TR2 then ⟨EV_KEY, BTN_THUMBR, v⟩
    else if c = BTN_WEST then ⟨EV_KEY, BTN_TL, v⟩
    else if c = BTN_Z then ⟨EV_KEY, BTN_TR, v⟩
    else if c = BTN_SELECT then ⟨EV_ABS, ABS_Z, v * MAX_OUT_TRIG⟩
    else if c = BTN_START then ⟨EV_ABS, ABS_RZ, v * MAX_OUT_TRIG⟩
    else if c = BTN_TR then ⟨EV_KEY, BTN_SELECT, v⟩
    else if c = BTN_TL then ⟨EV_KEY, BTN_START, v⟩
    else ⟨t, c, v⟩

/-- The closed set of quirk functions that `get_remap_fn` can select. -/
inductive Quirk where
  | rg351mQuirk
  | genericDac
deriving DecidableEq

/-- Quirk resolution, `get_remap_fn` in main.rs (lines 77-88): the exact
vendor/product identity `0x1209`/`0x3100` selects the `rg351m` remap;
otherwise a device exposing `BTN_DPAD_LEFT` selects `generic_dac`;
otherwise no remap. -/
def get_remap_fn (vendor product : Nat) (hasDpadLeft : Bool) : Option Quirk :=
  if vendor = 0x1209 ∧ product = 0x3100 then some Quirk.rg351mQuirk
  else if hasDpadLeft then some Quirk.genericDac
  else none

/-- Application of a resolved quirk to an event, i.e. the indirect call
`actual_remap_fn(&mut ev, ...)` in the streaming loop. -/
def applyQuirk : Option Quirk → InputEvent → InputEvent
  | none, ev => ev
  | some Quirk.rg351mQuirk, ev => rg351m ev
  | some Quirk.genericDac, ev => generic_dac ev

/-- The canonical comparison bound chosen for axis index `i` by the
`abs_multipliers_min` closure in main.rs (lines 133-147): trigger axes
(`ABS_Z`, `ABS_RZ`) target `MIN_OUT_TRIG`, every other slot targets
`MIN_OUT_ANALOG`. -/
def cmpAgainstMin (i : Nat) : Int :=
  if i = ABS_Z ∨ i = ABS_RZ then MIN_OUT_TRIG else MIN_OUT_ANALOG

/-- The canonical comparison bound chosen for axis index `i` by the
`abs_multipliers_max` closure in main.rs (lines 149-163). -/
def cmpAgainstMax (i : Nat) : Int :=
  if i = ABS_Z ∨ i = ABS_RZ then MAX_OUT_TRIG else MAX_OUT_ANALOG

/-- One entry of `abs_multipliers_min` (main.rs lines 133-147): if the
raw minimum `v` is within 100 of the canonical bound the multiplier is
`1`, otherwise it is the truncating division `cmp_against / v`. Rust's
`/` panics when `v = 0`; the panic is modelled as `none`. -/
def abs_multiplier_min (i : Nat) (v : Int) : Option Int :=
  if (v - cmpAgainstMin i).natAbs < 100 then some 1
  else if v = 0 then none
  else some ((cmpAgainstMin i).tdiv v)

/-- One entry of `abs_multipliers_max` (main.rs lines 149-163), with the
same zero-divisor panic modelled as `none`. -/
def abs_multiplier_max (i : Nat) (v : Int) : Option Int :=
  if (v - cmpAgainstMax i).natAbs < 100 then some 1
  else if v = 0 then none
  else some ((cmpAgainstMax i).tdiv v)

/-- Collects the six per-axis multipliers into a table, or `none` if any
entry panics, mirroring the `map(...).collect::<Vec<i32>>()` in
`input_handler` whose evaluation dies at the first faulting entry. -/
def buildMultipliers (entry : Nat → Int → Option Int) (bounds : Fin 6 → Int) :
    Option (Fin 6 → Int) :=
  if h : ∀ i : Fin 6, (entry i.val (bounds i)).isSome then
    some (fun i => (entry i.val (bounds i)).get (h i))
  else none

/-- The full `abs_multipliers_min` table from the snapshot of raw axis
minimums. -/
def abs_multipliers_min (mins : Fin 6 → Int) : Option (Fin 6 → Int) :=
  buildMultipliers abs_multiplier_min mins

/-- The full `abs_multipliers_max` table from the snapshot of raw axis
maximums. -/
def abs_multipliers_max (maxs : Fin 6 → Int) : Option (Fin 6 → Int) :=
  buildMultipliers abs_multiplier_max maxs

/-- One iteration of the streaming loop of `input_handler` (main.rs
lines 167-191) on a single fetched event: the list of events sent to the
channel for it. Hat-axis events pass their value through unchanged;
other absolute-axis events are scaled by the min- or max-side multiplier
according to the sign of the raw value (indexing the 6-entry tables —
an axis code outside `0..6` that is not a hat is an out-of-bounds `Vec`
index, i.e. a panic, modelled as `none`); key events are passed through
the resolved quirk (if any) and forwarded; all other event types are
dropped. -/
def processEvent (multMin multMax : Fin 6 → Int) (remap : Option Quirk)
    (ev : InputEvent) : Option (List InputEvent) :=
  if ev.eventType = EV_ABS then
    if ev.code = ABS_HAT0Y then some [⟨ev.eventType, ev.code, ev.value⟩]
    else if ev.code = ABS_HAT0X then some [⟨ev.eventType, ev.code, ev.value⟩]
    else if h : ev.code < 6 then
      some [⟨ev.eventType, ev.code,
        if ev.value < 0 then ev.value * multMin ⟨ev.code, h⟩
        else ev.value * multMax ⟨ev.code, h⟩⟩]
    else none
  else if ev.eventType = EV_KEY then
    some [applyQuirk remap ev]
  else some []

/-- The identity/capability data `input_handler` consults before
grabbing a device: whether `BTN_SOUTH` and `BTN_TOUCH` are among its
supported keys, its reported version, and its advertised name (`none`
when `dev.name()` yields no string). -/
structure DeviceIdent where
  hasSouth : Bool
  hasTouch : Bool
  version : Nat
  name : Option String
deriving DecidableEq

/-- The product string of the synthetic output device with the trailing
space appended, as it appears twice on line 109 of main.rs. -/
def XBOX_NAME_SPACE : String := "Microsoft X-Box 360 pad "

/-- Rust `str::starts_with` on the underlying character sequences. -/
def strStartsWith (s pat : String) : Bool :=
  pat.data.isPrefixOf s.data

/-- The suitability decision of `input_handler` (main.rs lines 91-111):
a mutable `useful` flag starting `false`, set `true` for a `BTN_SOUTH`
device, then forced `false` in turn by a `BTN_TOUCH` capability, by the
self-feedback version `0x2137`, and by an advertised name starting with
the synthetic product string plus trailing space (an unreadable name
defaults to exactly that string). -/
def useful (d : DeviceIdent) : Bool :=
  let u := false
  let u := if d.hasSouth then true else u
  let u := if d.hasTouch then false else u
  let u := if d.version = 0x2137 then false else u
  let u := if strStartsWith (d.name.getD XBOX_NAME_SPACE) XBOX_NAME_SPACE then false else u
  u

/-- How `input_handler` can leave its pre-streaming phase (main.rs lines
90-120). `rejectedOk` and `grabRefusedOk` both correspond to the
function returning `Ok(())`: the early `return Ok(())` for an unsuitable
device and the silent `return Ok(())` when `dev.grab()` is refused.
`proceeds` means the handler goes on to calibration and streaming. -/
inductive EarlyOutcome where
  | rejectedOk
  | grabRefusedOk
  | proceeds
deriving DecidableEq

/-- The pre-streaming phase of `input_handler`: the outcome together
with the list of events sent to the channel up to that point (always
empty — the first `tx.send` is inside the streaming loop). -/
def input_handler_entry (d : DeviceIdent) (grabOk : Bool) :
    EarlyOutcome × List InputEvent :=
  if useful d = false then (EarlyOutcome.rejectedOk, [])
  else if grabOk then (EarlyOutcome.proceeds, [])
  else (EarlyOutcome.grabRefusedOk, [])

/-- The fixed output contract of the synthetic device, from the
`AbsInfo` declarations and key set in `main` (main.rs lines 204-248):
hat axes in `{-1, 0, 1}`, trigger axes in `[0, 255]`, the remaining
absolute axes in `[-32768, 32767]`, digital buttons in `{0, 1}`. -/
def inContract (ev : InputEvent) : Bool :=
  if ev.eventType = EV_ABS then
    if ev.code = ABS_HAT0X ∨ ev.code = ABS_HAT0Y then
      decide (ev.value = -1 ∨ ev.value = 0 ∨ ev.value = 1)
    else if ev.code = ABS_Z ∨ ev.code = ABS_RZ then
      decide (MIN_OUT_TRIG ≤ ev.value ∧ ev.value ≤ MAX_OUT_TRIG)
    else
      decide (MIN_OUT_ANALOG ≤ ev.value ∧ ev.value ≤ MAX_OUT_ANALOG)
  else if ev.eventType = EV_KEY then
    decide (ev.value = 0 ∨ ev.value = 1)
  else true

/-- Input-side well-formedness of a raw event relative to the device's
axis snapshot, used to amend the output-contract claim: hat raw values
already in `{-1, 0, 1}`, key raw values in `{0, 1}`, tracked analog raw
values within the snapshot bounds and within the canonical stick range,
and trigger raw values additionally within `[0, 255]`. -/
def wellFormedRaw (mins maxs : Fin 6 → Int) (ev : InputEvent) : Prop :=
  (ev.eventType = EV_ABS →
    ((ev.code = ABS_HAT0X ∨ ev.code = ABS_HAT0Y) →
      ev.value = -1 ∨ ev.value = 0 ∨ ev.value = 1) ∧
    (∀ i : Fin 6, ev.code = i.val →
      mins i ≤ ev.value ∧ ev.value ≤ maxs i ∧
      MIN_OUT_ANALOG ≤ ev.value ∧ ev.value ≤ MAX_OUT_ANALOG ∧
      ((ev.code = ABS_Z ∨ ev.code = ABS_RZ) →
        MIN_OUT_TRIG ≤ ev.value ∧ ev.value ≤ MAX_OUT_TRIG))) ∧
  (ev.eventType = EV_KEY → ev.value = 0 ∨ ev.value = 1)

/-- A plain device name used in concrete witnesses below. -/
def SAMPLE_NAME : String := "OpenSimHardware OSH PB Controller"

/-! Arithmetic helpers about scaling by a truncating quotient. -/

/-- Scaling any `v` in `[0, b]` by the truncating quotient `t / b`
(`0 ≤ t`, `0 < b`) stays within `[0, t]`. -/
theorem tdiv_scale_nonneg {t b v : Int} (ht : 0 ≤ t) (hb : 0 < b)
    (hv0 : 0 ≤ v) (hvb : v ≤ b) :
    0 ≤ v * t.tdiv b ∧ v * t.tdiv b ≤ t := by
  have hd : 0 ≤ t.tdiv b := Int.tdiv_nonneg ht (le_of_lt hb)
  refine ⟨mul_nonneg hv0 hd, ?_⟩
  calc v * t.tdiv b ≤ b * t.tdiv b := mul_le_mul_of_nonneg_right hvb hd
    _ = t / b * b := by rw [Int.tdiv_eq_ediv ht (le_of_lt hb), mul_comm]
    _ ≤ t := Int.ediv_mul_le t (ne_of_gt hb)

/-- Scaling any `v` in `[b, 0]` by the truncating quotient `t / b`
(`t ≤ 0`, `b < 0`) stays within `[t, 0]`. -/
theorem tdiv_scale_nonpos {t b v : Int} (ht : t ≤ 0) (hb : b < 0)
    (hbv : b ≤ v) (hv0 : v ≤ 0) :
    t ≤ v * t.tdiv b ∧ v * t.tdiv b ≤ 0 := by
  have h := tdiv_scale_nonneg (t := -t) (b := -b) (v := -v)
    (by omega) (by omega) (by omega) (by omega)
  rw [Int.neg_tdiv_neg, neg_mul] at h
  exact ⟨by linarith [h.2], by linarith [h.1]⟩

/-- The magnitude of `b * (t / b)` under truncating division never
exceeds the magnitude of `t`. -/
theorem natAbs_mul_tdiv_le (t b : Int) :
    (b * t.tdiv b).natAbs ≤ t.natAbs := by
  rw [Int.natAbs_mul, Int.natAbs_tdiv]
  calc b.natAbs * (t.natAbs / b.natAbs)
      = t.natAbs / b.natAbs * b.natAbs := Nat.mul_comm _ _
    _ ≤ t.natAbs := Nat.div_mul_le_self _ _

/-- Case analysis on a successfully computed min-side multiplier. -/
theorem abs_multiplier_min_cases {i : Nat} {v m : Int}
    (h : abs_multiplier_min i v = some m) :
    ((v - cmpAgainstMin i).natAbs < 100 ∧ m = 1) ∨
    (100 ≤ (v - cmpAgainstMin i).natAbs ∧ v ≠ 0 ∧
      m = (cmpAgainstMin i).tdiv v) := by
  rw [abs_multiplier_min] at h
  split at h
  · rename_i hc
    exact Or.inl ⟨hc, (Option.some.inj h).symm⟩
  · rename_i hc
    split at h
    · exact Option.noConfusion h
    · rename_i hv
      exact Or.inr ⟨by omega, hv, (Option.some.inj h).symm⟩

/-- Case analysis on a successfully computed max-side multiplier. -/
theorem abs_multiplier_max_cases {i : Nat} {v m : Int}
    (h : abs_multiplier_max i v = some m) :
    ((v - cmpAgainstMax i).natAbs < 100 ∧ m = 1) ∨
    (100 ≤ (v - cmpAgainstMax i).natAbs ∧ v ≠ 0 ∧
      m = (cmpAgainstMax i).tdiv v) := by
  rw [abs_multiplier_max] at h
  split at h
  · rename_i hc
    exact Or.inl ⟨hc, (Option.some.inj h).symm⟩
  · rename_i hc
    split at h
    · exact Option.noConfusion h
    · rename_i hv
      exact Or.inr ⟨by omega, hv, (Option.some.inj h).symm⟩

/-- Raw axis minimums reported by the scenario-1 device (stick ranges
`[0, 1023]`, trigger ranges `[0, 255]`): all six minimums are 0. -/
def scenario1Mins : Fin 6 → Int := fun _ => 0

/-- Raw axis maximums reported by the scenario-1 device: 255 on the two
trigger slots, 1023 elsewhere. -/
def scenario1Maxs : Fin 6 → Int :=
  fun i => if i.val = ABS_Z ∨ i.val = ABS_RZ then 255 else 1023

/-- The max-side multiplier table the calibrator computes from
`scenario1Maxs`: 1 on the trigger slots (255 is within tolerance of the
target) and `32767 / 1023 = 32` elsewhere. -/
def scenario1MaxTable : Fin 6 → Int :=
  fun i => if i.val = ABS_Z ∨ i.val = ABS_RZ then 1 else 32

/-- Snapshot minimums of an already-calibrated device (used as concrete
witnesses): canonical stick minimum on stick slots, 0 on triggers. -/
def calMins : Fin 6 → Int :=
  fun i => if i.val = ABS_Z ∨ i.val = ABS_RZ then 0 else -32768

/-- Snapshot maximums of an already-calibrated device: canonical trigger
maximum on trigger slots, canonical stick maximum elsewhere. -/
def calMaxs : Fin 6 → Int :=
  fun i => if i.val = ABS_Z ∨ i.val = ABS_RZ then 255 else 32767

/-- Contract interval for one calibrated (non-hat) axis sample: if both
multipliers for axis `i` were computed successfully and the raw value
`v` lies within the snapshot bounds, within the canonical stick range,
and (on a trigger slot) within the canonical trigger range, then the
scaled value the streaming loop computes lies in the canonical interval
of that axis class. -/
theorem axis_scale_bounds (i : Nat) (mn mx mMin mMax v : Int)
    (hmn : abs_multiplier_min i mn = some mMin)
    (hmx : abs_multiplier_max i mx = some mMax)
    (hlo : mn ≤ v) (hhi : v ≤ mx)
    (hs1 : -32768 ≤ v) (hs2 : v ≤ 32767)
    (htrig : (i = ABS_Z ∨ i = ABS_RZ) → 0 ≤ v ∧ v ≤ 255) :
    (¬(i = ABS_Z ∨ i = ABS_RZ) →
      -32768 ≤ (if v < 0 then v * mMin else v * mMax) ∧
      (if v < 0 then v * mMin else v * mMax) ≤ 32767) ∧
    ((i = ABS_Z ∨ i = ABS_RZ) →
      0 ≤ (if v < 0 then v * mMin else v * mMax) ∧
      (if v < 0 then v * mMin else v * mMax) ≤ 255) := by
  constructor
  · intro hni
    have hcmin : cmpAgainstMin i = -32768 := by
      rw [cmpAgainstMin, if_neg hni]
      rfl
    have hcmax : cmpAgainstMax i = 32767 := by
      rw [cmpAgainstMax, if_neg hni]
      rfl
    by_cases hv : v < 0
    · rw [if_pos hv]
      rcases abs_multiplier_min_cases hmn with ⟨-, rfl⟩ | ⟨-, hmn0, rfl⟩
      · rw [mul_one]
        exact ⟨hs1, hs2⟩
      · rw [hcmin]
        have hmnneg : mn < 0 := lt_of_le_of_lt hlo hv
        have h := tdiv_scale_nonpos (t := -32768) (b := mn) (v := v)
          (by omega) hmnneg hlo (le_of_lt hv)
        exact ⟨h.1, by linarith [h.2]⟩
    · rw [if_neg hv]
      push_neg at hv
      rcases abs_multiplier_max_cases hmx with ⟨-, rfl⟩ | ⟨-, hmx0, rfl⟩
      · rw [mul_one]
        exact ⟨hs1, hs2⟩
      · rw [hcmax]
        have hmxpos : 0 < mx := by omega
        have h := tdiv_scale_nonneg (t := 32767) (b := mx) (v := v)
          (by omega) hmxpos hv hhi
        exact ⟨by linarith [h.1], h.2⟩
  · intro hi
    obtain ⟨hv0, hv255⟩ := htrig hi
    have hcmax : cmpAgainstMax i = 255 := by
      rw [cmpAgainstMax, if_pos hi]
      rfl
    have hvneg : ¬v < 0 := by omega
    rw [if_neg hvneg]
    rcases abs_multiplier_max_cases hmx with ⟨-, rfl⟩ | ⟨-, hmx0, rfl⟩
    · rw [mul_one]
      exact ⟨hv0, hv255⟩
    · rw [hcmax]
      have hmxpos : 0 < mx := by omega
      exact tdiv_scale_nonneg (t := 255) (b := mx) (v := v)
        (by omega) hmxpos hv0 hhi

/-! Claim theorems. -/

/-- Claim C1 (evaluation at the failing input): the claim says a raw
axis bound of 0 yields multiplier 1 with no numeric fault, but the code
reaches `cmp_against / 0` whenever the zero bound is at least 100 away
from the canonical bound: for an all-zero snapshot the min-side stick
entries and every max-side entry divide by zero (modelled `none`); only
the min-side trigger entries (canonical bound 0) escape with
multiplier 1. -/
theorem c1_zero_bound_division_fault :
    abs_multiplier_min ABS_X 0 = none ∧
    abs_multiplier_max ABS_X 0 = none ∧
    abs_multiplier_max ABS_Z 0 = none ∧
    abs_multiplier_min ABS_Z 0 = some 1 ∧
    abs_multipliers_min (fun _ => 0) = none ∧
    abs_multipliers_max (fun _ => 0) = none := by
  refine ⟨by decide, by decide, by decide, by decide, ?_, ?_⟩
  · rw [abs_multipliers_min, buildMultipliers, dif_neg]
    intro h
    exact absurd (h 0) (by decide)
  · rw [abs_multipliers_max, buildMultipliers, dif_neg]
    intro h
    exact absurd (h 0) (by decide)

/-- Claim C3 counterexample: at axis index 0 with raw bound 0 (which is
not within 100 of the canonical target 32767), the code does not produce
the integer division of the target by the bound — it produces no
multiplier at all (division-by-zero panic, `none`). -/
theorem c3_counterexample :
    abs_multiplier_max ABS_X 0 ≠ some ((cmpAgainstMax ABS_X).tdiv 0) ∧
    abs_multiplier_max ABS_X 0 ≠ some 1 := by decide

/-- Claim C3 amended: for every axis index and every raw bound `v ≠ 0`,
a bound within 100 units of the axis's canonical target gives multiplier
exactly 1, and otherwise the multiplier is the truncating integer
division of the canonical target by `v` (at `v = 0` outside the
tolerance window the computation faults instead). -/
theorem c3_multiplier_formula (i : Fin 6) (v : Int) (hv : v ≠ 0) :
    ((v - cmpAgainstMin i.val).natAbs < 100 →
      abs_multiplier_min i.val v = some 1) ∧
    (100 ≤ (v - cmpAgainstMin i.val).natAbs →
      abs_multiplier_min i.val v = some ((cmpAgainstMin i.val).tdiv v)) ∧
    ((v - cmpAgainstMax i.val).natAbs < 100 →
      abs_multiplier_max i.val v = some 1) ∧
    (100 ≤ (v - cmpAgainstMax i.val).natAbs →
      abs_multiplier_max i.val v = some ((cmpAgainstMax i.val).tdiv v)) := by
  refine ⟨fun h => ?_, fun h => ?_, fun h => ?_, fun h => ?_⟩
  · rw [abs_multiplier_min, if_pos h]
  · rw [abs_multiplier_min, if_neg (by omega), if_neg hv]
  · rw [abs_multiplier_max, if_pos h]
  · rw [abs_multiplier_max, if_neg (by omega), if_neg hv]

/-- Witness for C3: concrete evaluations through the theorem — the
scenario bound 1023 is scaled by `32767 / 1023`, and a near-canonical
bound 32700 is left with multiplier 1. -/
theorem c3_witness :
    abs_multiplier_max ABS_X 1023 = some ((cmpAgainstMax ABS_X).tdiv 1023) ∧
    abs_multiplier_max ABS_X 32700 = some 1 := by
  have h1 := c3_multiplier_formula 0 1023 (by decide)
  have h2 := c3_multiplier_formula 0 32700 (by decide)
  exact ⟨h1.2.2.2 (by decide), h2.2.2.1 (by decide)⟩

/-- Claim C5: the suitability rules apply in order with later rules
overriding earlier ones — a touch button, the synthetic-output version
`0x2137`, or the trailing-space name each force rejection even of a
device with a south button, while a south button with none of the
overriding conditions gives acceptance. -/
theorem c5_filter_override_order (d : DeviceIdent) :
    (d.hasTouch = true → useful d = false) ∧
    (d.version = 0x2137 → useful d = false) ∧
    (strStartsWith (d.name.getD XBOX_NAME_SPACE) XBOX_NAME_SPACE = true →
      useful d = false) ∧
    (d.hasSouth = true → d.hasTouch = false → d.version ≠ 0x2137 →
      strStartsWith (d.name.getD XBOX_NAME_SPACE) XBOX_NAME_SPACE = false →
      useful d = true) := by
  refine ⟨fun h => ?_, fun h => ?_, fun h => ?_, fun hs ht hv hn => ?_⟩
  · simp [useful, h]
  · simp [useful, h]
  · simp [useful, h]
  · simp [useful, hs, ht, hv, hn]

/-- Witness for C5: a south-plus-touch device is rejected; the same
device without the touch button is accepted. -/
theorem c5_witness :
    useful ⟨true, true, 0, some SAMPLE_NAME⟩ = false ∧
    useful ⟨true, false, 0, some SAMPLE_NAME⟩ = true :=
  ⟨(c5_filter_override_order ⟨true, true, 0, some SAMPLE_NAME⟩).1 rfl,
   (c5_filter_override_order ⟨true, false, 0, some SAMPLE_NAME⟩).2.2.2
      rfl rfl (by decide) (by decide)⟩

/-- Claim C6: the rg351m remap is total on its declared 12-code input
set with exactly the tabulated outputs, the declared A/B (south/east)
swap is an involution, the vendor/product pair `0x1209`/`0x3100`
resolves to this remap, and a `BTN_SOUTH` press processed by the
streaming loop under this quirk is forwarded as a `BTN_EAST` press. -/
theorem c6_rg351m_table (v : Int) (dl : Bool) (mm MM : Fin 6 → Int) :
    rg351m ⟨EV_KEY, BTN_EAST, v⟩ = ⟨EV_KEY, BTN_SOUTH, v⟩ ∧
    rg351m ⟨EV_KEY, BTN_SOUTH, v⟩ = ⟨EV_KEY, BTN_EAST, v⟩ ∧
    rg351m ⟨EV_KEY, BTN_NORTH, v⟩ = ⟨EV_KEY, BTN_WEST, v⟩ ∧
    rg351m ⟨EV_KEY, BTN_C, v⟩ = ⟨EV_KEY, BTN_NORTH, v⟩ ∧
    rg351m ⟨EV_KEY, BTN_TL2, v⟩ = ⟨EV_KEY, BTN_THUMBL, v⟩ ∧
    rg351m ⟨EV_KEY, BTN_TR2, v⟩ = ⟨EV_KEY, BTN_THUMBR, v⟩ ∧
    rg351m ⟨EV_KEY, BTN_WEST, v⟩ = ⟨EV_KEY, BTN_TL, v⟩ ∧
    rg351m ⟨EV_KEY, BTN_Z, v⟩ = ⟨EV_KEY, BTN_TR, v⟩ ∧
    rg351m ⟨EV_KEY, BTN_SELECT, v⟩ = ⟨EV_ABS, ABS_Z, v * MAX_OUT_TRIG⟩ ∧
    rg351m ⟨EV_KEY, BTN_START, v⟩ = ⟨EV_ABS, ABS_RZ, v * MAX_OUT_TRIG⟩ ∧
    rg351m ⟨EV_KEY, BTN_TR, v⟩ = ⟨EV_KEY, BTN_SELECT, v⟩ ∧
    rg351m ⟨EV_KEY, BTN_TL, v⟩ = ⟨EV_KEY, BTN_START, v⟩ ∧
    rg351m (rg351m ⟨EV_KEY, BTN_SOUTH, v⟩) = ⟨EV_KEY, BTN_SOUTH, v⟩ ∧
    rg351m (rg351m ⟨EV_KEY, BTN_EAST, v⟩) = ⟨EV_KEY, BTN_EAST, v⟩ ∧
    get_remap_fn 0x1209 0x3100 dl = some Quirk.rg351mQuirk ∧
    processEvent mm MM (some Quirk.rg351mQuirk) ⟨EV_KEY, BTN_SOUTH, 1⟩ =
      some [⟨EV_KEY, BTN_EAST, 1⟩] :=
  ⟨rfl, rfl, rfl, rfl, rfl, rfl, rfl, rfl, rfl, rfl, rfl, rfl, rfl, rfl,
   rfl, rfl⟩

/-- Claim C7: the generic D-pad synthesizer sends a pressed direction to
exactly -1 (up/left) or +1 (down/right) on the matching hat axis, a
released direction to 0, never any other hat magnitude, and sends
`BTN_TL2`/`BTN_TR2` to trigger values 255 on press and 0 on release. -/
theorem c7_generic_dac_values (v : Int) :
    (v ≠ 0 → generic_dac ⟨EV_KEY, BTN_DPAD_UP, v⟩ = ⟨EV_ABS, ABS_HAT0Y, -1⟩) ∧
    (v ≠ 0 → generic_dac ⟨EV_KEY, BTN_DPAD_DOWN, v⟩ = ⟨EV_ABS, ABS_HAT0Y, 1⟩) ∧
    (v ≠ 0 → generic_dac ⟨EV_KEY, BTN_DPAD_LEFT, v⟩ = ⟨EV_ABS, ABS_HAT0X, -1⟩) ∧
    (v ≠ 0 → generic_dac ⟨EV_KEY, BTN_DPAD_RIGHT, v⟩ = ⟨EV_ABS, ABS_HAT0X, 1⟩) ∧
    generic_dac ⟨EV_KEY, BTN_DPAD_UP, 0⟩ = ⟨EV_ABS, ABS_HAT0Y, 0⟩ ∧
    generic_dac ⟨EV_KEY, BTN_DPAD_DOWN, 0⟩ = ⟨EV_ABS, ABS_HAT0Y, 0⟩ ∧
    generic_dac ⟨EV_KEY, BTN_DPAD_LEFT, 0⟩ = ⟨EV_ABS, ABS_HAT0X, 0⟩ ∧
    generic_dac ⟨EV_KEY, BTN_DPAD_RIGHT, 0⟩ = ⟨EV_ABS, ABS_HAT0X, 0⟩ ∧
    (v ≠ 0 → generic_dac ⟨EV_KEY, BTN_TL2, v⟩ = ⟨EV_ABS, ABS_Z, 255⟩) ∧
    (v ≠ 0 → generic_dac ⟨EV_KEY, BTN_TR2, v⟩ = ⟨EV_ABS, ABS_RZ, 255⟩) ∧
    generic_dac ⟨EV_KEY, BTN_TL2, 0⟩ = ⟨EV_ABS, ABS_Z, 0⟩ ∧
    generic_dac ⟨EV_KEY, BTN_TR2, 0⟩ = ⟨EV_ABS, ABS_RZ, 0⟩ ∧
    (∀ c : Nat, c = BTN_DPAD_UP ∨ c = BTN_DPAD_DOWN ∨ c = BTN_DPAD_LEFT ∨
        c = BTN_DPAD_RIGHT →
      (generic_dac ⟨EV_KEY, c, v⟩).value = -1 ∨
      (generic_dac ⟨EV_KEY, c, v⟩).value = 0 ∨
      (generic_dac ⟨EV_KEY, c, v⟩).value = 1) := by
  have hup : generic_dac ⟨EV_KEY, BTN_DPAD_UP, v⟩ =
      ⟨EV_ABS, ABS_HAT0Y, if v = 0 then 0 else -1⟩ := rfl
  have hdn : generic_dac ⟨EV_KEY, BTN_DPAD_DOWN, v⟩ =
      ⟨EV_ABS, ABS_HAT0Y, if v = 0 then 0 else 1⟩ := rfl
  have hlf : generic_dac ⟨EV_KEY, BTN_DPAD_LEFT, v⟩ =
      ⟨EV_ABS, ABS_HAT0X, if v = 0 then 0 else -1⟩ := rfl
  have hrt : generic_dac ⟨EV_KEY, BTN_DPAD_RIGHT, v⟩ =
      ⟨EV_ABS, ABS_HAT0X, if v = 0 then 0 else 1⟩ := rfl
  have htl : generic_dac ⟨EV_KEY, BTN_TL2, v⟩ =
      ⟨EV_ABS, ABS_Z, if v = 0 then MIN_OUT_TRIG else MAX_OUT_TRIG⟩ := rfl
  have htr : generic_dac ⟨EV_KEY, BTN_TR2, v⟩ =
      ⟨EV_ABS, ABS_RZ, if v = 0 then MIN_OUT_TRIG else MAX_OUT_TRIG⟩ := rfl
  refine ⟨fun h => ?_, fun h => ?_, fun h => ?_, fun h => ?_, rfl, rfl, rfl,
    rfl, fun h => ?_, fun h => ?_, rfl, rfl, fun c hc => ?_⟩
  · rw [hup, if_neg h]
  · rw [hdn, if_neg h]
  · rw [hlf, if_neg h]
  · rw [hrt, if_neg h]
  · rw [htl, if_neg h]
    rfl
  · rw [htr, if_neg h]
    rfl
  · rcases hc with rfl | rfl | rfl | rfl
    · rw [hup]
      by_cases h : v = 0 <;> simp [h]
    · rw [hdn]
      by_cases h : v = 0 <;> simp [h]
    · rw [hlf]
      by_cases h : v = 0 <;> simp [h]
    · rw [hrt]
      by_cases h : v = 0 <;> simp [h]

/-- Witness for C7: a left press (value 1) yields exactly one hat event
of value -1 on the horizontal hat, and a `BTN_TL2` press a trigger value
of 255. -/
theorem c7_witness :
    generic_dac ⟨EV_KEY, BTN_DPAD_LEFT, 1⟩ = ⟨EV_ABS, ABS_HAT0X, -1⟩ ∧
    generic_dac ⟨EV_KEY, BTN_TL2, 1⟩ = ⟨EV_ABS, ABS_Z, 255⟩ := by
  obtain ⟨-, -, h3, -, -, -, -, -, h9, -⟩ := c7_generic_dac_values 1
  exact ⟨h3 (by decide), h9 (by decide)⟩

/-- Claim C8: raw events on the two hat axis codes are forwarded with
their value unchanged by the streaming loop, for every pair of
calibration tables and every resolved quirk. -/
theorem c8_hat_passthrough (mm MM : Fin 6 → Int) (remap : Option Quirk)
    (v : Int) :
    processEvent mm MM remap ⟨EV_ABS, ABS_HAT0X, v⟩ =
      some [⟨EV_ABS, ABS_HAT0X, v⟩] ∧
    processEvent mm MM remap ⟨EV_ABS, ABS_HAT0Y, v⟩ =
      some [⟨EV_ABS, ABS_HAT0Y, v⟩] :=
  ⟨rfl, rfl⟩

/-- Claim C9: an unsuitable device, or a device whose exclusive grab is
refused, makes the worker return `Ok(())` silently with no event ever
sent to the channel. -/
theorem c9_silent_termination (d : DeviceIdent) (g : Bool) :
    (useful d = false →
      input_handler_entry d g = (EarlyOutcome.rejectedOk, [])) ∧
    (useful d = true →
      input_handler_entry d false = (EarlyOutcome.grabRefusedOk, [])) := by
  constructor
  · intro h
    simp [input_handler_entry, h]
  · intro h
    simp [input_handler_entry, h]

/-- Witness for C9: a concrete unsuitable device and a concrete suitable
but already-grabbed device. -/
theorem c9_witness :
    input_handler_entry ⟨false, false, 0, some SAMPLE_NAME⟩ true =
      (EarlyOutcome.rejectedOk, []) ∧
    input_handler_entry ⟨true, false, 0, some SAMPLE_NAME⟩ false =
      (EarlyOutcome.grabRefusedOk, []) :=
  ⟨(c9_silent_termination ⟨false, false, 0, some SAMPLE_NAME⟩ true).1
      (by decide),
   (c9_silent_termination ⟨true, false, 0, some SAMPLE_NAME⟩ true).2
      (by decide)⟩

/-- Claim C4 counterexample: the scenario-1 device as stated (stick
raw range `[0, 1023]`) reports raw minimum 0 on stick slots, and on that
snapshot the min-side calibration table faults (divide by zero) before
any streaming, so no sample of that device is ever forwarded. -/
theorem c4_counterexample : abs_multipliers_min scenario1Mins = none := by
  rw [abs_multipliers_min, buildMultipliers, dif_neg]
  intro h
  exact absurd (h 0) (by decide)

/-- Claim C4 amended: for every axis index and raw bound `b ≠ 0` at
least 100 away from the canonical bound, the computed multiplier is the
truncating division of the canonical target by `b`, and `b` scaled by it
never exceeds the target in magnitude; and for a stick axis with raw
maximum 1023 the max-side table entry is `32767 / 1023 = 32`, so a
max-value raw sample 1023 is forwarded as `1023 * 32 = 32736 ≈ 32767`
(provided the min-side bounds calibrate without fault, which the
scenario's zero minimums do not). -/
theorem c4_scaled_magnitude (i : Fin 6) (b : Int) (hb : b ≠ 0) :
    (100 ≤ (b - cmpAgainstMin i.val).natAbs →
      abs_multiplier_min i.val b = some ((cmpAgainstMin i.val).tdiv b) ∧
      (b * (cmpAgainstMin i.val).tdiv b).natAbs ≤ (cmpAgainstMin i.val).natAbs) ∧
    (100 ≤ (b - cmpAgainstMax i.val).natAbs →
      abs_multiplier_max i.val b = some ((cmpAgainstMax i.val).tdiv b) ∧
      (b * (cmpAgainstMax i.val).tdiv b).natAbs ≤ (cmpAgainstMax i.val).natAbs) ∧
    (∀ j : Fin 6,
      abs_multiplier_max j.val (scenario1Maxs j) = some (scenario1MaxTable j)) ∧
    (∀ mm : Fin 6 → Int,
      processEvent mm scenario1MaxTable none ⟨EV_ABS, ABS_X, 1023⟩ =
        some [⟨EV_ABS, ABS_X, 32736⟩]) := by
  refine ⟨fun h => ⟨?_, natAbs_mul_tdiv_le _ _⟩,
    fun h => ⟨?_, natAbs_mul_tdiv_le _ _⟩, by decide, fun mm => rfl⟩
  · rw [abs_multiplier_min, if_neg (by omega), if_neg hb]
  · rw [abs_multiplier_max, if_neg (by omega), if_neg hb]

/-- Witness for C4: the scenario bound 1023 on the first stick axis. -/
theorem c4_witness :
    abs_multiplier_max ABS_X 1023 = some ((cmpAgainstMax ABS_X).tdiv 1023) ∧
    (1023 * (cmpAgainstMax ABS_X).tdiv 1023).natAbs ≤ (cmpAgainstMax ABS_X).natAbs ∧
    processEvent (fun _ => 1) scenario1MaxTable none ⟨EV_ABS, ABS_X, 1023⟩ =
      some [⟨EV_ABS, ABS_X, 32736⟩] := by
  have h := c4_scaled_magnitude 0 1023 (by decide)
  exact ⟨(h.2.1 (by decide)).1, (h.2.1 (by decide)).2, h.2.2.2 (fun _ => 1)⟩

/-- Claim C2 counterexample: a raw horizontal-hat event of value 2 is
forwarded unchanged by the streaming loop — its value is outside the
declared hat range `{-1, 0, 1}` — even under multiplier tables the
calibrator itself produced (here the all-ones tables computed from an
already-calibrated snapshot). -/
theorem c2_counterexample :
    processEvent (fun _ => 1) (fun _ => 1) none ⟨EV_ABS, ABS_HAT0X, 2⟩ =
      some [⟨EV_ABS, ABS_HAT0X, 2⟩] ∧
    inContract ⟨EV_ABS, ABS_HAT0X, 2⟩ = false ∧
    (∀ i : Fin 6, abs_multiplier_min i.val (calMins i) = some 1) ∧
    (∀ i : Fin 6, abs_multiplier_max i.val (calMaxs i) = some 1) := by
  decide

/-- A key event with a digital value forwarded without a quirk is within
the contract. -/
theorem key_contract (c : Nat) (v : Int) (hv : v = 0 ∨ v = 1) :
    inContract ⟨EV_KEY, c, v⟩ = true := by
  rcases hv with rfl | rfl <;> simp [inContract, EV_KEY, EV_ABS]

/-- Every output of the rg351m remap on a key event with a digital value
is within the contract. -/
theorem rg351m_contract (c : Nat) (v : Int) (hv : v = 0 ∨ v = 1) :
    inContract (rg351m ⟨EV_KEY, c, v⟩) = true := by
  by_cases h1 : c = BTN_EAST
  · subst h1; rcases hv with rfl | rfl <;> decide
  by_cases h2 : c = BTN_SOUTH
  · subst h2; rcases hv with rfl | rfl <;> decide
  by_cases h3 : c = BTN_NORTH
  · subst h3; rcases hv with rfl | rfl <;> decide
  by_cases h4 : c = BTN_C
  · subst h4; rcases hv with rfl | rfl <;> decide
  by_cases h5 : c = BTN_TL2
  · subst h5; rcases hv with rfl | rfl <;> decide
  by_cases h6 : c = BTN_TR2
  · subst h6; rcases hv with rfl | rfl <;> decide
  by_cases h7 : c = BTN_WEST
  · subst h7; rcases hv with rfl | rfl <;> decide
  by_cases h8 : c = BTN_Z
  · subst h8; rcases hv with rfl | rfl <;> decide
  by_cases h9 : c = BTN_SELECT
  · subst h9; rcases hv with rfl | rfl <;> decide
  by_cases h10 : c = BTN_START
  · subst h10; rcases hv with rfl | rfl <;> decide
  by_cases h11 : c = BTN_TR
  · subst h11; rcases hv with rfl | rfl <;> decide
  by_cases h12 : c = BTN_TL
  · subst h12; rcases hv with rfl | rfl <;> decide
  have hfix : rg351m ⟨EV_KEY, c, v⟩ = ⟨EV_KEY, c, v⟩ := by
    simp only [rg351m]
    rw [if_neg (not_not_intro rfl), if_neg h1, if_neg h2, if_neg h3, if_neg h4,
      if_neg h5, if_neg h6, if_neg h7, if_neg h8, if_neg h9, if_neg h10,
      if_neg h11, if_neg h12]
  rw [hfix]
  exact key_contract c v hv

/-- Every output of the generic D-pad synthesizer on a key event with a
digital value is within the contract. -/
theorem generic_dac_contract (c : Nat) (v : Int) (hv : v = 0 ∨ v = 1) :
    inContract (generic_dac ⟨EV_KEY, c, v⟩) = true := by
  by_cases h1 : c = BTN_DPAD_UP
  · subst h1; rcases hv with rfl | rfl <;> decide
  by_cases h2 : c = BTN_DPAD_DOWN
  · subst h2; rcases hv with rfl | rfl <;> decide
  by_cases h3 : c = BTN_DPAD_LEFT
  · subst h3; rcases hv with rfl | rfl <;> decide
  by_cases h4 : c = BTN_DPAD_RIGHT
  · subst h4; rcases hv with rfl | rfl <;> decide
  by_cases h5 : c = BTN_TL2
  · subst h5; rcases hv with rfl | rfl <;> decide
  by_cases h6 : c = BTN_TR2
  · subst h6; rcases hv with rfl | rfl <;> decide
  have hfix : generic_dac ⟨EV_KEY, c, v⟩ = ⟨EV_KEY, c, v⟩ := by
    simp only [generic_dac]
    rw [if_neg (not_not_intro rfl), if_neg h1, if_neg h2, if_neg h3, if_neg h4,
      if_neg h5, if_neg h6]
  rw [hfix]
  exact key_contract c v hv

/-- Claim C2 amended: every event the streaming loop forwards conforms
to the fixed output contract, provided the calibration of both tables
succeeded and the raw event is well-formed for its class (hat raw values
already in `{-1, 0, 1}`, key raw values in `{0, 1}`, analog raw values
within the snapshot bounds and the canonical stick range, trigger raw
values within `[0, 255]`). -/
theorem c2_output_contract (mins maxs multMin multMax : Fin 6 → Int)
    (remap : Option Quirk) (ev : InputEvent) (l : List InputEvent)
    (hmin : ∀ i : Fin 6, abs_multiplier_min i.val (mins i) = some (multMin i))
    (hmax : ∀ i : Fin 6, abs_multiplier_max i.val (maxs i) = some (multMax i))
    (hraw : wellFormedRaw mins maxs ev)
    (hrun : processEvent multMin multMax remap ev = some l) :
    ∀ out ∈ l, inContract out = true := by
  intro out hout
  unfold processEvent at hrun
  by_cases hA : ev.eventType = EV_ABS
  · rw [if_pos hA] at hrun
    obtain ⟨habs, -⟩ := hraw
    obtain ⟨hhat, haxes⟩ := habs hA
    by_cases h17 : ev.code = ABS_HAT0Y
    · rw [if_pos h17] at hrun
      obtain rfl : l = [⟨ev.eventType, ev.code, ev.value⟩] :=
        (Option.some.inj hrun).symm
      rw [List.mem_singleton] at hout
      subst hout
      rcases hhat (Or.inr h17) with h | h | h <;>
        simp [inContract, hA, h17, h, EV_ABS, EV_KEY, ABS_HAT0X, ABS_HAT0Y]
    · rw [if_neg h17] at hrun
      by_cases h16 : ev.code = ABS_HAT0X
      · rw [if_pos h16] at hrun
        obtain rfl : l = [⟨ev.eventType, ev.code, ev.value⟩] :=
          (Option.some.inj hrun).symm
        rw [List.mem_singleton] at hout
        subst hout
        rcases hhat (Or.inl h16) with h | h | h <;>
          simp [inContract, hA, h16, h, EV_ABS, EV_KEY, ABS_HAT0X, ABS_HAT0Y]
      · rw [if_neg h16] at hrun
        by_cases hlt : ev.code < 6
        · rw [dif_pos hlt] at hrun
          obtain rfl : l = [⟨ev.eventType, ev.code,
              if ev.value < 0 then ev.value * multMin ⟨ev.code, hlt⟩
              else ev.value * multMax ⟨ev.code, hlt⟩⟩] :=
            (Option.some.inj hrun).symm
          rw [List.mem_singleton] at hout
          subst hout
          obtain ⟨hlo, hhi, hs1, hs2, htrig⟩ := haxes ⟨ev.code, hlt⟩ rfl
          have hb := axis_scale_bounds ev.code (mins ⟨ev.code, hlt⟩)
            (maxs ⟨ev.code, hlt⟩) (multMin ⟨ev.code, hlt⟩)
            (multMax ⟨ev.code, hlt⟩) ev.value
            (hmin ⟨ev.code, hlt⟩) (hmax ⟨ev.code, hlt⟩) hlo hhi hs1 hs2
            (fun h => htrig h)
          by_cases htr : ev.code = ABS_Z ∨ ev.code = ABS_RZ
          · have hbounds := hb.2 htr
            simpa [inContract, hA, h16, h17, htr, MIN_OUT_TRIG, MAX_OUT_TRIG]
              using hbounds
          · have hbounds := hb.1 htr
            simpa [inContract, hA, h16, h17, htr, MIN_OUT_ANALOG,
              MAX_OUT_ANALOG] using hbounds
        · rw [dif_neg hlt] at hrun
          exact Option.noConfusion hrun
  · rw [if_neg hA] at hrun
    by_cases hK : ev.eventType = EV_KEY
    · rw [if_pos hK] at hrun
      obtain rfl : l = [applyQuirk remap ev] := (Option.some.inj hrun).symm
      rw [List.mem_singleton] at hout
      subst hout
      have hv : ev.value = 0 ∨ ev.value = 1 := hraw.2 hK
      obtain ⟨ty, code, v⟩ := ev
      dsimp only at hv hK
      subst hK
      rcases remap with - | q
      · exact key_contract code v hv
      · cases q
        · exact rg351m_contract code v hv
        · exact generic_dac_contract code v hv
    · rw [if_neg hK] at hrun
      obtain rfl : l = [] := (Option.some.inj hrun).symm
      simp at hout

/-- Witness for C2: a well-formed stick sample on an already-calibrated
device is forwarded within the contract. -/
theorem c2_witness : inContract ⟨EV_ABS, ABS_X, 1000⟩ = true :=
  c2_output_contract calMins calMaxs (fun _ => 1) (fun _ => 1) none
    ⟨EV_ABS, ABS_X, 1000⟩ [⟨EV_ABS, ABS_X, 1000⟩] (by decide) (by decide)
    (by unfold wellFormedRaw; decide)
    (by decide) ⟨EV_ABS, ABS_X, 1000⟩ (List.mem_singleton.mpr rfl)

/-- Claim C10: a device whose name query yields no string is always
rejected, whatever its buttons and version, because the missing name
defaults to the trailing-space synthetic product string, which its own
name rule matches. -/
theorem c10_unreadable_name_rejected (s t : Bool) (ver : Nat) :
    useful ⟨s, t, ver, none⟩ = false := by
  have hpref : strStartsWith XBOX_NAME_SPACE XBOX_NAME_SPACE = true := by
    decide
  simp [useful, hpref]

end Rinputer
